import Mathlib

/-!
Verification development for the ppi-sources client core.

The development shallowly embeds the two source modules:

* `ppi_sources/api.py` — `SourceAPIClient._raise_for_status_with_desc`, the
  error-classification step of the request gateway;
* `ppi_sources/stringdb/api.py` — `StringDBAPISource.get_network` and
  `StringDBAPISource.build_custom_network`, the identifier-resolution and
  network-construction pipeline.

Remote responses are modelled as explicit parameters: the proteins table of
the remote authority is a list of rows, and the `select` endpoints filter it
exactly as the structured query (`filter: {<column>: [<values...>]}`) does.
Pandas cell values are modelled by `PyVal` (Python never identifies an `int`
with a `str` under `==`), and the raising behaviour of the pipeline is made
explicit in an `Except` result.
-/

deriving instance DecidableEq for Except

namespace PPISources

/-- A Python value as stored in a pandas cell: an integer or a string.
Python equality never identifies an integer with a string (`"1" == 1` is
`False`), which the derived `DecidableEq` mirrors by constructor disjointness. -/
inductive PyVal where
  | int (n : Int)
  | str (s : String)
  deriving DecidableEq, Repr

/-- A row of the remote authority's proteins table, as returned by
`/db/stringdb/items/proteins/select` with columns
`protein_id`, `species_id`, `protein_external_id`
(the code later renames `protein_id` to `string_id` and
`protein_external_id` to `external_id`; we keep the wire names). -/
structure ProteinRow where
  protein_id : Int
  species_id : Int
  protein_external_id : String
  deriving DecidableEq, Repr

/-- Characters accepted by Python `str.isnumeric()` but rejected by
`int()`: the non-decimal Unicode numerics.  The model carries a
representative subset (superscripts and vulgar fractions); only the
existence of this class matters, not the full Unicode table. -/
def nonDecimalNumericChar (c : Char) : Bool :=
  c = '¹' || c = '²' || c = '³' || c = '½' || c = '¼' || c = '¾'

/-- Python `str.isnumeric()`: true iff the string is non-empty and every
character is numeric.  Decimal digits are modelled by the ASCII digits and
the non-decimal numerics (accepted by `isnumeric` but rejected by `int()`)
by the representative subset above; non-ASCII decimal digits, which both
functions accept alike, are left out as immaterial. -/
def pyIsNumeric (s : String) : Bool :=
  !s.data.isEmpty && s.data.all (fun c => c.isDigit || nonDecimalNumericChar c)

/-- Python `int(s)` succeeds on an `isnumeric` token: true iff the string
is non-empty and all characters are decimal digits.  On an `isnumeric`
token containing a non-decimal numeric (such as `"²"`), `int()` raises
`ValueError`. -/
def pyIntAccepts (s : String) : Bool :=
  !s.data.isEmpty && s.data.all (fun c => c.isDigit)

/-- Python `int(s)` on a string accepted by `pyIsNumeric`: the decimal value
of the digits. -/
def strToInt (s : String) : Int :=
  Int.ofNat (s.data.foldl (fun n c => n * 10 + (c.toNat - 48)) 0)

/-- Modelled from the spec: the spec-side notion "the token parses as an
integer" (Python `int()` succeeds), which also accepts an optional leading
sign before the digits.  This definition exists only to be compared with the
source's `pyIsNumeric` test; the source code never uses it. -/
def parsesAsPyInt (s : String) : Bool :=
  match s.data with
  | [] => false
  | c :: cs =>
    if c = '-' || c = '+' then !cs.isEmpty && cs.all (fun d => d.isDigit)
    else pyIntAccepts s

/-- The identifier scheme inferred (or declared) for a token set:
`canonical` selects the `protein_id` column, `external` selects
`protein_external_id`. -/
inductive Scheme where
  | canonical
  | external
  deriving DecidableEq, Repr

/-- Scheme inference of `build_custom_network`: the column queried is
`protein_id` exactly when every vertex token is numeric
(`all(vert_id.isnumeric() for vert_id in vert_ids)`), and
`protein_external_id` otherwise. -/
def inferScheme (vert_ids : List String) : Scheme :=
  if vert_ids.all pyIsNumeric then Scheme.canonical else Scheme.external

/-- Row-major flattening of the edge array, as `edges_array.flatten()` yields
it for the `(n, 2)` string array built from the edge list. -/
def flattenPairs : List (String × String) → List String
  | [] => []
  | (a, b) :: es => a :: b :: flattenPairs es

/-- The deduplicated vertex token set
`np.unique(edges_array.flatten()).tolist()`.  (`np.unique` additionally
sorts its output; no later step depends on the order, only on membership.) -/
def vertTokens (edges : List (String × String)) : List String :=
  (flattenPairs edges).dedup

/-- The proteins `select` with `filter: {protein_id: ids}`: the rows of the
remote table whose `protein_id` is among the requested values. -/
def selectProteinsById (db : List ProteinRow) (ids : List Int) : List ProteinRow :=
  db.filter (fun r => decide (r.protein_id ∈ ids))

/-- The proteins `select` with `filter: {protein_external_id: ids}`. -/
def selectProteinsByExtId (db : List ProteinRow) (ids : List String) : List ProteinRow :=
  db.filter (fun r => decide (r.protein_external_id ∈ ids))

/-- The `vert_data` frame of `build_custom_network`: the proteins select on
the column chosen by scheme inference, with the vertex tokens cast to
integers in the canonical case (`vert_ids = [int(v) for v in vert_ids]`). -/
def resolvedVertData (db : List ProteinRow) (vert_ids : List String) : List ProteinRow :=
  match inferScheme vert_ids with
  | Scheme.canonical => selectProteinsById db (vert_ids.map strToInt)
  | Scheme.external => selectProteinsByExtId db vert_ids

/-- Canonical-scheme edge validation (`provided_stringdb_col == 'protein_id'`):
`known_ids = set(map(str, vert_data.string_id))` and the edge frame is
filtered to rows whose two endpoint tokens are members of that set of
decimal string renderings. -/
def buildEdgesCanonical (edges : List (String × String)) (vert_data : List ProteinRow) :
    List (String × String) :=
  let known_ids := vert_data.map (fun r => toString r.protein_id)
  edges.filter (fun e => decide (e.1 ∈ known_ids) && decide (e.2 ∈ known_ids))

/-- Lookup through `ext_id_to_string_id = vert_data.set_index('external_id').string_id`:
the `protein_id` of the row whose `protein_external_id` matches (first match;
the lookup is only ever used when the index is duplicate-free). -/
def extIdToStringId (vert_data : List ProteinRow) (t : String) : Option Int :=
  (vert_data.find? (fun r => r.protein_external_id == t)).map (fun r => r.protein_id)

/-- Python-level exceptions escaping the embedded pipeline. -/
inductive PyErr where
  /-- pandas `InvalidIndexError`: `Series.map` with a `Series` argument
  requires a uniquely valued index; duplicate `external_id` values in
  `vert_data` (possible across species) make `col.map(ext_id_to_string_id)`
  raise before any row is produced. -/
  | invalidIndexError
  /-- Python `ValueError` from `int(vert_id)` at the canonical cast, when a
  token accepted by `isnumeric` contains a non-decimal numeric character. -/
  | valueError
  /-- Python `AttributeError` at `vert_data.species_id`: a zero-row
  response (a sequence of row-mappings) makes `pd.DataFrame` a column-less
  frame, on which the `species_id` attribute access fails. -/
  | attributeError
  deriving DecidableEq, Repr

/-- External-scheme edge validation: each endpoint column is rewritten
through `ext_id_to_string_id` (`edges_df.apply(lambda col: col.map(...))`)
and rows with an unmapped endpoint are removed by `.dropna()`.  When the
`external_id` index is not duplicate-free the pandas lookup raises
`InvalidIndexError` instead of producing rows. -/
def buildEdgesExternal (edges : List (String × String)) (vert_data : List ProteinRow) :
    Except PyErr (List (Int × Int)) :=
  if (vert_data.map (fun r => r.protein_external_id)).Nodup then
    Except.ok (edges.filterMap (fun e =>
      match extIdToStringId vert_data e.1, extIdToStringId vert_data e.2 with
      | some a, some b => some (a, b)
      | _, _ => none))
  else
    Except.error PyErr.invalidIndexError

/-- The value object returned by both entry points (constructed as
`StringDBNetwork(name, species_ids, vert_data.set_index('string_id').external_id,
edges_df)`; the constructor itself lives in `ppi_sources/stringdb/types.py`,
outside the embedded sources, so the fields record exactly the four
constructor arguments).  `id_map` is the `string_id`-indexed `external_id`
series — the IdentifierMap — as an association list from integer `string_id`
keys to external-ID values. -/
structure StringDBNetwork where
  name : String
  species_ids : List Int
  id_map : List (Int × String)
  edges : List (PyVal × PyVal)
  deriving DecidableEq, Repr

/-- The diagnostic printed when edges were dropped:
`dropped {old_nrows - len(edges_df)} unknown edges out of {old_nrows}`. -/
structure BuildDiag where
  dropped : Nat
  total : Nat
  deriving DecidableEq, Repr

/-- A completed `build_custom_network` run: the returned network together
with the optional dropped-edges diagnostic emitted on stderr. -/
structure BuildOutcome where
  network : StringDBNetwork
  diag : Option BuildDiag
  deriving DecidableEq, Repr

/-- The surviving edge rows of `build_custom_network`, as `PyVal` cells: the
canonical branch keeps the original string tokens of the filtered rows; the
external branch holds the integer `string_id` values produced by the
rewrite. -/
def survivingEdges (db : List ProteinRow) (raw_edges : List (String × String)) :
    Except PyErr (List (PyVal × PyVal)) :=
  let vert_ids := vertTokens raw_edges
  let vert_data := resolvedVertData db vert_ids
  match inferScheme vert_ids with
  | Scheme.canonical =>
    Except.ok ((buildEdgesCanonical raw_edges vert_data).map
      (fun e => (PyVal.str e.1, PyVal.str e.2)))
  | Scheme.external =>
    match buildEdgesExternal raw_edges vert_data with
    | Except.ok l => Except.ok (l.map (fun e => (PyVal.int e.1, PyVal.int e.2)))
    | Except.error err => Except.error err

/-- Assembly of the returned outcome from the surviving edge rows: the tail
of `build_custom_network` after edge validation.  `species_ids` is
`vert_data.species_id.unique().tolist()` (first-seen-order deduplication),
the diagnostic is emitted exactly when `old_nrows != len(edges_df)`, and the
name joins the sorted deduplicated species IDs with underscores after the
literal `"stringdb_custom_"`. -/
def assembleOutcome (db : List ProteinRow) (raw_edges : List (String × String))
    (edges : List (PyVal × PyVal)) : BuildOutcome :=
  -- `List.dedup` differs from pandas `unique()` in which duplicate occurrence
  -- it keeps; only membership matters downstream (the name sorts the result).
  let vert_data := resolvedVertData db (vertTokens raw_edges)
  let species_ids := (vert_data.map (fun r => r.species_id)).dedup
  let old_nrows := raw_edges.length
  { network :=
      { name := "stringdb_custom_" ++
          String.intercalate ("_")
            ((List.insertionSort (fun a b => a ≤ b) species_ids).map toString)
        species_ids := species_ids
        id_map := vert_data.map (fun r => (r.protein_id, r.protein_external_id))
        edges := edges }
    diag :=
      if old_nrows ≠ edges.length then
        some { dropped := old_nrows - edges.length, total := old_nrows }
      else none }

/-- Embedding of `StringDBAPISource.build_custom_network`.  The remote
proteins table is the `db` parameter; `raw_edges` is `net_desc['edges']`
after the `dtype=str` conversion.  The pipeline: deduplicate the vertex
tokens; infer the scheme, and in the canonical case cast every token with
`int()` — which raises `ValueError` if an `isnumeric` token is not all
decimal digits; query the proteins select; read `vert_data.species_id` —
which raises `AttributeError` when the response had zero rows, because the
resulting frame is column-less (this also covers an empty edge list, whose
empty select always returns zero rows, so the shape-mismatch `ValueError`
at the later `pd.DataFrame(edges_array, columns=[...])` is unreachable);
validate the edge frame; emit the dropped-edges diagnostic when rows were
lost; and name the result from the sorted deduplicated species IDs. -/
def build_custom_network (db : List ProteinRow) (raw_edges : List (String × String)) :
    Except PyErr BuildOutcome :=
  let vert_ids := vertTokens raw_edges
  if inferScheme vert_ids = Scheme.canonical ∧ vert_ids.all pyIntAccepts = false then
    Except.error PyErr.valueError
  else if resolvedVertData db vert_ids = [] then
    Except.error PyErr.attributeError
  else
    match survivingEdges db raw_edges with
    | Except.error err => Except.error err
    | Except.ok edges => Except.ok (assembleOutcome db raw_edges edges)

/-- Embedding of `StringDBAPISource.get_network`: the identifier metadata is
the proteins select filtered by `species_id: [net_desc['species_id']]`, and
the edge frame is the response of `/db/stringdb/network/edges/select`,
forwarded verbatim with no validation (modelled by the opaque `edges_resp`
parameter). -/
def get_network (db : List ProteinRow) (species_id : Int)
    (edges_resp : List (PyVal × PyVal)) : StringDBNetwork :=
  let ext_ids := db.filter (fun r => decide (r.species_id ∈ [species_id]))
  { name := "stringdb_" ++ toString species_id
    species_ids := [species_id]
    id_map := ext_ids.map (fun r => (r.protein_id, r.protein_external_id))
    edges := edges_resp }

/-- State of an HTTP response as seen by the gateway: status, reason, the
outcome of attempting `resp.json()` on the body (`some payload` when the
body decodes, `none` when the decode raises), and whether `resp.release()`
has been called. -/
structure Resp where
  status : Nat
  reason : String
  json_body_decode : Option String
  released : Bool
  deriving DecidableEq, Repr

/-- Exceptions escaping `_raise_for_status_with_desc`. -/
inductive ClientError where
  /-- The typed gateway error `SourceAPIClientResponseError(status, message,
  json_body)`. -/
  | sourceAPIClientResponseError (status : Nat) (message : String) (json_body : Option String)
  /-- Python `NameError` for an undefined name evaluated at runtime. -/
  | nameError (missing : String)
  deriving DecidableEq, Repr

/-- Observable outcome of running `_raise_for_status_with_desc`: the final
response state, the lines printed, and the exception raised (if any). -/
structure HandlerOutcome where
  resp : Resp
  log : List String
  raised : Option ClientError
  deriving DecidableEq, Repr

/-- Embedding of `SourceAPIClient._raise_for_status_with_desc`.  For a
status below 400 nothing happens.  For a status of at least 400 the body is
decoded as JSON inside a `try` block whose handler is written `except e:` —
`e` is an undefined name, so when `resp.json()` raises, evaluating the
handler clause itself raises `NameError` before the logging `print`, the
`resp.release()` call and the typed raise are ever reached.  Only when the
body decodes successfully does the code release the response and raise
`SourceAPIClientResponseError(status, reason, json_body)`. -/
def raise_for_status_with_desc (resp : Resp) : HandlerOutcome :=
  if resp.status ≥ 400 then
    match resp.json_body_decode with
    | some body =>
      { resp := { resp with released := true }
        log := []
        raised := some (ClientError.sourceAPIClientResponseError
          resp.status resp.reason (some body)) }
    | none =>
      { resp := resp
        log := []
        raised := some (ClientError.nameError ("e")) }
  else
    { resp := resp, log := [], raised := none }

/-! Basic characterizations of the embedded operations. -/

theorem mem_flattenPairs (t : String) (edges : List (String × String)) :
    t ∈ flattenPairs edges ↔ ∃ e ∈ edges, t = e.1 ∨ t = e.2 := by
  induction edges with
  | nil => simp [flattenPairs]
  | cons e es ih =>
    obtain ⟨a, b⟩ := e
    constructor
    · intro h
      simp only [flattenPairs, List.mem_cons] at h
      rcases h with h1 | h1 | h
      · exact ⟨(a, b), List.mem_cons_self _ _, Or.inl h1⟩
      · exact ⟨(a, b), List.mem_cons_self _ _, Or.inr h1⟩
      · obtain ⟨e, he, hte⟩ := ih.1 h
        exact ⟨e, List.mem_cons_of_mem _ he, hte⟩
    · rintro ⟨e, he, hte⟩
      simp only [flattenPairs, List.mem_cons]
      rcases List.mem_cons.1 he with rfl | he2
      · rcases hte with h1 | h2
        · exact Or.inl h1
        · exact Or.inr (Or.inl h2)
      · exact Or.inr (Or.inr (ih.2 ⟨e, he2, hte⟩))

theorem mem_vertTokens (t : String) (edges : List (String × String)) :
    t ∈ vertTokens edges ↔ ∃ e ∈ edges, t = e.1 ∨ t = e.2 := by
  rw [vertTokens, List.mem_dedup, mem_flattenPairs]

theorem mem_buildEdgesCanonical (edges : List (String × String))
    (vert_data : List ProteinRow) (e : String × String) :
    e ∈ buildEdgesCanonical edges vert_data ↔
      e ∈ edges ∧ (∃ r ∈ vert_data, toString r.protein_id = e.1) ∧
        (∃ r ∈ vert_data, toString r.protein_id = e.2) := by
  simp [buildEdgesCanonical, List.mem_filter, List.mem_map]

theorem extIdToStringId_some {vert_data : List ProteinRow} {t : String} {a : Int}
    (h : extIdToStringId vert_data t = some a) :
    ∃ r ∈ vert_data, r.protein_id = a ∧ r.protein_external_id = t := by
  unfold extIdToStringId at h
  cases hf : vert_data.find? (fun r => r.protein_external_id == t) with
  | none => rw [hf] at h; cases h
  | some r =>
    rw [hf] at h
    simp at h
    refine ⟨r, List.mem_of_find?_eq_some hf, h, ?_⟩
    have hp := List.find?_some hf
    simpa using hp

theorem buildEdgesExternal_ok_elim {edges : List (String × String)}
    {vert_data : List ProteinRow} {l : List (Int × Int)}
    (h : buildEdgesExternal edges vert_data = Except.ok l) :
    (vert_data.map (fun r => r.protein_external_id)).Nodup ∧
    l = edges.filterMap (fun e =>
      match extIdToStringId vert_data e.1, extIdToStringId vert_data e.2 with
      | some a, some b => some (a, b)
      | _, _ => none) := by
  unfold buildEdgesExternal at h
  split at h
  · rename_i hnd
    simp only [Except.ok.injEq] at h
    exact ⟨hnd, h.symm⟩
  · cases h

theorem survivingEdges_canonical {db : List ProteinRow}
    {raw_edges : List (String × String)}
    (hsc : inferScheme (vertTokens raw_edges) = Scheme.canonical) :
    survivingEdges db raw_edges =
      Except.ok
        ((buildEdgesCanonical raw_edges (resolvedVertData db (vertTokens raw_edges))).map
          (fun e => (PyVal.str e.1, PyVal.str e.2))) := by
  simp [survivingEdges, hsc]

theorem survivingEdges_external {db : List ProteinRow}
    {raw_edges : List (String × String)}
    (hsc : inferScheme (vertTokens raw_edges) = Scheme.external) :
    survivingEdges db raw_edges =
      (match buildEdgesExternal raw_edges (resolvedVertData db (vertTokens raw_edges)) with
       | Except.ok l => Except.ok (l.map (fun e => (PyVal.int e.1, PyVal.int e.2)))
       | Except.error err => Except.error err) := by
  simp [survivingEdges, hsc]

theorem survivingEdges_length_le {db : List ProteinRow}
    {raw_edges : List (String × String)} {edges : List (PyVal × PyVal)}
    (h : survivingEdges db raw_edges = Except.ok edges) :
    edges.length ≤ raw_edges.length := by
  simp only [survivingEdges] at h
  split at h
  · simp only [Except.ok.injEq] at h
    subst h
    simp only [List.length_map, buildEdgesCanonical]
    exact List.length_filter_le _ _
  · split at h
    · rename_i l hext
      simp only [Except.ok.injEq] at h
      subst h
      obtain ⟨-, hl⟩ := buildEdgesExternal_ok_elim hext
      subst hl
      simp only [List.length_map]
      exact List.length_filterMap_le _ _
    · cases h

theorem build_custom_network_eq_ok {db : List ProteinRow}
    {raw_edges : List (String × String)} {edges : List (PyVal × PyVal)}
    (hcast : ¬ (inferScheme (vertTokens raw_edges) = Scheme.canonical ∧
      (vertTokens raw_edges).all pyIntAccepts = false))
    (hvd : ¬ resolvedVertData db (vertTokens raw_edges) = [])
    (hs : survivingEdges db raw_edges = Except.ok edges) :
    build_custom_network db raw_edges = Except.ok (assembleOutcome db raw_edges edges) := by
  simp only [build_custom_network]
  rw [if_neg hcast, if_neg hvd, hs]

theorem build_custom_network_ok_shape {db : List ProteinRow}
    {raw_edges : List (String × String)} {out : BuildOutcome}
    (h : build_custom_network db raw_edges = Except.ok out) :
    ¬ (inferScheme (vertTokens raw_edges) = Scheme.canonical ∧
      (vertTokens raw_edges).all pyIntAccepts = false) ∧
    resolvedVertData db (vertTokens raw_edges) ≠ [] ∧
    ∃ edges, survivingEdges db raw_edges = Except.ok edges ∧
      out = assembleOutcome db raw_edges edges := by
  simp only [build_custom_network] at h
  split at h
  · exact absurd h (by simp)
  · rename_i hcast
    split at h
    · exact absurd h (by simp)
    · rename_i hvd
      split at h
      · exact absurd h (by simp)
      · rename_i edges hs
        simp only [Except.ok.injEq] at h
        exact ⟨hcast, hvd, edges, hs, h.symm⟩

theorem assembleOutcome_edges (db : List ProteinRow)
    (raw_edges : List (String × String)) (edges : List (PyVal × PyVal)) :
    (assembleOutcome db raw_edges edges).network.edges = edges := rfl

theorem assembleOutcome_species (db : List ProteinRow)
    (raw_edges : List (String × String)) (edges : List (PyVal × PyVal)) :
    (assembleOutcome db raw_edges edges).network.species_ids =
      ((resolvedVertData db (vertTokens raw_edges)).map (fun r => r.species_id)).dedup := rfl

theorem assembleOutcome_id_map (db : List ProteinRow)
    (raw_edges : List (String × String)) (edges : List (PyVal × PyVal)) :
    (assembleOutcome db raw_edges edges).network.id_map =
      (resolvedVertData db (vertTokens raw_edges)).map
        (fun r => (r.protein_id, r.protein_external_id)) := rfl

theorem assembleOutcome_name (db : List ProteinRow)
    (raw_edges : List (String × String)) (edges : List (PyVal × PyVal)) :
    (assembleOutcome db raw_edges edges).network.name =
      "stringdb_custom_" ++
        String.intercalate ("_")
          ((List.insertionSort (fun a b => a ≤ b)
            (assembleOutcome db raw_edges edges).network.species_ids).map toString) := rfl

theorem assembleOutcome_diag (db : List ProteinRow)
    (raw_edges : List (String × String)) (edges : List (PyVal × PyVal)) :
    (assembleOutcome db raw_edges edges).diag =
      (if raw_edges.length ≠ edges.length then
        some { dropped := raw_edges.length - edges.length, total := raw_edges.length }
      else none) := rfl

theorem map_fst_id_map (l : List ProteinRow) :
    (l.map (fun r => (r.protein_id, r.protein_external_id))).map Prod.fst =
      l.map (fun r => r.protein_id) := by
  simp [List.map_map]

theorem insertionSort_dedup_eq_of_mem_iff (l₁ l₂ : List Int)
    (h : ∀ a : Int, a ∈ l₁ ↔ a ∈ l₂) :
    List.insertionSort (fun a b => a ≤ b) l₁.dedup =
      List.insertionSort (fun a b => a ≤ b) l₂.dedup := by
  have hperm : l₁.dedup.Perm l₂.dedup :=
    (List.perm_ext_iff_of_nodup (List.nodup_dedup _) (List.nodup_dedup _)).2
      (fun a => by simpa [List.mem_dedup] using h a)
  exact List.eq_of_perm_of_sorted
    ((List.perm_insertionSort _ _).trans (hperm.trans (List.perm_insertionSort _ _).symm))
    (List.sorted_insertionSort _ _) (List.sorted_insertionSort _ _)

/-- A `PyVal` endpoint names a key of the given IdentifierMap key list under
the representations the pipeline produces: the integer form is a key itself;
the string form is the decimal rendering `str(key)` of a key. -/
def endpointMatchesKey (keys : List Int) : PyVal → Bool
  | PyVal.int n => decide (n ∈ keys)
  | PyVal.str s => decide (∃ k ∈ keys, toString k = s)

/-! Claim C1. -/

/-- C1 (amended): for every Network returned by `build_custom_network`,
every endpoint of the edge table names a key of the Network's IdentifierMap:
under the external scheme it is an integer key itself, and under the
canonical scheme it is the decimal string rendering `str(key)` of a key —
not the key itself, since the canonical branch keeps the string tokens (see
the counterexample).  `get_network` forwards the remote edge response
verbatim with no validation, so no invariant is enforced on its edge table
by the code. -/
theorem c1_edge_endpoints_name_id_map_keys (db : List ProteinRow)
    (raw_edges : List (String × String)) (out : BuildOutcome)
    (h : build_custom_network db raw_edges = Except.ok out) :
    (∀ p ∈ out.network.edges,
      endpointMatchesKey (out.network.id_map.map Prod.fst) p.1 = true ∧
      endpointMatchesKey (out.network.id_map.map Prod.fst) p.2 = true) ∧
    (∀ (db2 : List ProteinRow) (sp : Int) (resp : List (PyVal × PyVal)),
      (get_network db2 sp resp).edges = resp) := by
  obtain ⟨-, -, edges, hs, hout⟩ := build_custom_network_ok_shape h
  subst hout
  refine ⟨?_, fun db2 sp resp => rfl⟩
  rw [assembleOutcome_edges, assembleOutcome_id_map, map_fst_id_map]
  intro p hp
  simp only [survivingEdges] at hs
  split at hs
  · simp only [Except.ok.injEq] at hs
    subst hs
    simp only [List.mem_map] at hp
    obtain ⟨e, he, rfl⟩ := hp
    rw [mem_buildEdgesCanonical] at he
    obtain ⟨-, ⟨r1, hr1, hs1⟩, ⟨r2, hr2, hs2⟩⟩ := he
    constructor
    · simp only [endpointMatchesKey, decide_eq_true_eq]
      exact ⟨r1.protein_id, List.mem_map_of_mem _ hr1, hs1⟩
    · simp only [endpointMatchesKey, decide_eq_true_eq]
      exact ⟨r2.protein_id, List.mem_map_of_mem _ hr2, hs2⟩
  · split at hs
    · rename_i l hext
      simp only [Except.ok.injEq] at hs
      subst hs
      simp only [List.mem_map] at hp
      obtain ⟨e, he, rfl⟩ := hp
      obtain ⟨-, hl⟩ := buildEdgesExternal_ok_elim hext
      subst hl
      rw [List.mem_filterMap] at he
      obtain ⟨e0, he0, hm⟩ := he
      cases h1 : extIdToStringId (resolvedVertData db (vertTokens raw_edges)) e0.1 with
      | none => rw [h1] at hm; simp at hm
      | some a =>
        cases h2 : extIdToStringId (resolvedVertData db (vertTokens raw_edges)) e0.2 with
        | none => rw [h1, h2] at hm; simp at hm
        | some b =>
          rw [h1, h2] at hm
          simp only [Option.some.injEq] at hm
          subst hm
          obtain ⟨r1, hr1, hid1, -⟩ := extIdToStringId_some h1
          obtain ⟨r2, hr2, hid2, -⟩ := extIdToStringId_some h2
          constructor
          · simp only [endpointMatchesKey, decide_eq_true_eq]
            exact hid1 ▸ List.mem_map_of_mem _ hr1
          · simp only [endpointMatchesKey, decide_eq_true_eq]
            exact hid2 ▸ List.mem_map_of_mem _ hr2
    · cases hs

/-- C1 counterexample: a canonical-scheme run in which the edge table holds
the string token `"1"` while the IdentifierMap key is the integer `1`;
Python equality does not identify `"1"` with `1`, so the endpoint is not a
key of the map and the claimed membership invariant fails as stated. -/
theorem c1_str_endpoint_not_a_key_counterexample :
    build_custom_network [⟨1, 9606, ("9606.ENSP1")⟩] [("1", "1")] =
      Except.ok ⟨⟨("stringdb_custom_9606"), [9606], [(1, ("9606.ENSP1"))],
        [(PyVal.str ("1"), PyVal.str ("1"))]⟩, none⟩ ∧
    ¬ (PyVal.str ("1") ∈
        ([(1, ("9606.ENSP1"))] : List (Int × String)).map (fun kv => PyVal.int kv.1)) := by
  constructor
  · decide
  · decide

/-- C1 witness: the amended theorem applied to a concrete canonical run. -/
theorem c1_edge_endpoints_name_id_map_keys_witness :
    (∀ p ∈ [(PyVal.str ("1"), PyVal.str ("1"))],
      endpointMatchesKey [(1 : Int)] p.1 = true ∧
      endpointMatchesKey [(1 : Int)] p.2 = true) ∧
    (∀ (db2 : List ProteinRow) (sp : Int) (resp : List (PyVal × PyVal)),
      (get_network db2 sp resp).edges = resp) :=
  c1_edge_endpoints_name_id_map_keys [⟨1, 9606, ("9606.ENSP1")⟩] [("1", "1")]
    ⟨⟨("stringdb_custom_9606"), [9606], [(1, ("9606.ENSP1"))],
      [(PyVal.str ("1"), PyVal.str ("1"))]⟩, none⟩ (by decide)

/-! Claim C2. -/

/-- C2 counterexample: a non-empty identifier query whose remote mapping is
empty does fail, and the failure propagates — but it is the untyped
`AttributeError` from the `species_id` access on the column-less empty
response frame, not a `ResolutionError`, which exists nowhere in the
embedded sources. -/
theorem c2_empty_mapping_attribute_error_counterexample :
    vertTokens [("1", "2")] ≠ [] ∧
    resolvedVertData [] (vertTokens [("1", "2")]) = [] ∧
    build_custom_network [] [("1", "2")] = Except.error PyErr.attributeError := by
  refine ⟨by decide, by decide, by decide⟩

/-- C2 (amended): when the remote authority returns zero rows for a
non-empty identifier set (and the canonical cast, which precedes the
request, did not already fail), identifier resolution fails and the failure
propagates to the caller — but with an untyped `AttributeError` raised at
the `vert_data.species_id` access on the column-less empty response frame,
not with a `ResolutionError`, which exists nowhere in the code. -/
theorem c2_empty_mapping_attribute_error (db : List ProteinRow)
    (raw_edges : List (String × String)) (_hne : vertTokens raw_edges ≠ [])
    (hcast : inferScheme (vertTokens raw_edges) = Scheme.canonical →
      (vertTokens raw_edges).all pyIntAccepts = true)
    (hempty : resolvedVertData db (vertTokens raw_edges) = []) :
    build_custom_network db raw_edges = Except.error PyErr.attributeError := by
  have hng : ¬ (inferScheme (vertTokens raw_edges) = Scheme.canonical ∧
      (vertTokens raw_edges).all pyIntAccepts = false) := by
    rintro ⟨h1, h2⟩
    rw [hcast h1] at h2
    cases h2
  simp only [build_custom_network]
  rw [if_neg hng, if_pos hempty]

/-- C2 witness: the amended theorem applied at a concrete input. -/
theorem c2_empty_mapping_attribute_error_witness :
    build_custom_network [] [("7", "8")] = Except.error PyErr.attributeError :=
  c2_empty_mapping_attribute_error [] [("7", "8")] (by decide) (by decide) (by decide)

/-! Claim C3. -/

/-- C3 counterexample: every token of the set containing only `"-5"` parses
as an integer in the Python sense (`int("-5")` succeeds), yet the inference
treats the set as external IDs, because the code tests `str.isnumeric`,
which rejects a leading sign. -/
theorem c3_signed_token_counterexample :
    (∀ t ∈ [("-5")], parsesAsPyInt t = true) ∧
    inferScheme [("-5")] = Scheme.external := by
  refine ⟨by decide, by decide⟩

/-- C3 (amended): for every non-empty token set, if every token is purely
numeric (`str.isnumeric`: numeric characters only, no sign) the set is
treated as canonical IDs and the query is made on the integer casts of the
tokens;
if at least one token is not purely numeric the whole set is treated as
external IDs. -/
theorem c3_scheme_inference_by_isnumeric (vert_ids : List String)
    (_hne : vert_ids ≠ []) :
    (vert_ids.all pyIsNumeric = true →
      inferScheme vert_ids = Scheme.canonical ∧
      ∀ db : List ProteinRow,
        resolvedVertData db vert_ids = selectProteinsById db (vert_ids.map strToInt)) ∧
    (vert_ids.all pyIsNumeric = false →
      inferScheme vert_ids = Scheme.external ∧
      ∀ db : List ProteinRow,
        resolvedVertData db vert_ids = selectProteinsByExtId db vert_ids) := by
  constructor
  · intro hall
    have hsc : inferScheme vert_ids = Scheme.canonical := by simp [inferScheme, hall]
    exact ⟨hsc, fun db => by simp [resolvedVertData, hsc]⟩
  · intro hall
    have hsc : inferScheme vert_ids = Scheme.external := by simp [inferScheme, hall]
    exact ⟨hsc, fun db => by simp [resolvedVertData, hsc]⟩

/-- C3 witness: the amended theorem applied to the all-numeric set
containing `"12"` and, through its second projection, to a concrete
database. -/
theorem c3_scheme_inference_by_isnumeric_witness :
    inferScheme [("12")] = Scheme.canonical ∧
    resolvedVertData [] [("12")] = selectProteinsById [] [(12 : Int)] := by
  have h := (c3_scheme_inference_by_isnumeric [("12")] (by decide)).1 (by decide)
  exact ⟨h.1, h.2 []⟩

/-! Claim C4. -/

/-- C4 counterexample: the token `"01"` casts to the canonical ID `1`, which
is queried, resolved, and present in the IdentifierMap's canonical domain —
yet the edge `("01", "1")` is dropped, because the filter compares the raw
token text with `str(1) = "1"`, not the integer values.  An edge both of
whose endpoints belong to the canonical domain is therefore falsely
dropped. -/
theorem c4_noncanonical_decimal_form_counterexample :
    strToInt ("01") = 1 ∧
    build_custom_network [⟨1, 9606, ("P1")⟩] [(("01"), ("1"))] =
      Except.ok ⟨⟨("stringdb_custom_9606"), [9606], [(1, ("P1"))], []⟩, some ⟨1, 1⟩⟩ := by
  refine ⟨by decide, by decide⟩

/-- C4 (amended): under the canonical scheme the surviving edges are exactly
the input edges both of whose endpoint tokens are literally equal to the
decimal string rendering `str(k)` of some canonical ID `k` in the
IdentifierMap's domain; a token in non-canonical decimal form (such as
`"01"`) is dropped even when its integer value is in the domain. -/
theorem c4_canonical_filter_by_decimal_rendering (edges : List (String × String))
    (vert_data : List ProteinRow) (e : String × String) :
    e ∈ buildEdgesCanonical edges vert_data ↔
      e ∈ edges ∧
      (∃ k ∈ vert_data.map (fun r => r.protein_id), toString k = e.1) ∧
      (∃ k ∈ vert_data.map (fun r => r.protein_id), toString k = e.2) := by
  rw [mem_buildEdgesCanonical]
  constructor
  · rintro ⟨he, ⟨r1, hr1, h1⟩, ⟨r2, hr2, h2⟩⟩
    exact ⟨he, ⟨r1.protein_id, List.mem_map_of_mem _ hr1, h1⟩,
      ⟨r2.protein_id, List.mem_map_of_mem _ hr2, h2⟩⟩
  · rintro ⟨he, ⟨k1, hk1, h1⟩, ⟨k2, hk2, h2⟩⟩
    rw [List.mem_map] at hk1 hk2
    obtain ⟨r1, hr1, rfl⟩ := hk1
    obtain ⟨r2, hr2, rfl⟩ := hk2
    exact ⟨he, ⟨r1, hr1, h1⟩, ⟨r2, hr2, h2⟩⟩

/-! Claim C5. -/

/-- C5: for every completed `build_custom_network` run, the diagnostic is
emitted exactly when rows were dropped, it reports
`dropped = input row count − surviving row count` and the input row count,
and the dropped count is positive whenever the diagnostic appears; when no
diagnostic appears, no row was dropped. -/
theorem c5_dropped_count_accounting (db : List ProteinRow)
    (raw_edges : List (String × String)) (out : BuildOutcome)
    (h : build_custom_network db raw_edges = Except.ok out) :
    (out.diag = none → out.network.edges.length = raw_edges.length) ∧
    (∀ d : BuildDiag, out.diag = some d →
      d.total = raw_edges.length ∧
      d.dropped = raw_edges.length - out.network.edges.length ∧
      0 < d.dropped) := by
  obtain ⟨-, -, edges, hs, hout⟩ := build_custom_network_ok_shape h
  subst hout
  have hle := survivingEdges_length_le hs
  rw [assembleOutcome_edges, assembleOutcome_diag]
  by_cases hcond : raw_edges.length ≠ edges.length
  · rw [if_pos hcond]
    constructor
    · intro h0; cases h0
    · intro d hd
      simp only [Option.some.injEq] at hd
      subst hd
      refine ⟨rfl, rfl, ?_⟩
      show 0 < raw_edges.length - edges.length
      omega
  · rw [if_neg hcond]
    push_neg at hcond
    constructor
    · intro _; omega
    · intro d hd; cases hd

/-- C5 witness: the accounting theorem applied to a run in which one of one
edge is dropped. -/
theorem c5_dropped_count_accounting_witness :
    ((some ⟨1, 1⟩ : Option BuildDiag) = none →
      ([] : List (PyVal × PyVal)).length = [(("1"), ("7"))].length) ∧
    (∀ d : BuildDiag, (some ⟨1, 1⟩ : Option BuildDiag) = some d →
      d.total = [(("1"), ("7"))].length ∧
      d.dropped = [(("1"), ("7"))].length - ([] : List (PyVal × PyVal)).length ∧
      0 < d.dropped) :=
  c5_dropped_count_accounting [⟨1, 9606, ("P1")⟩] [(("1"), ("7"))]
    ⟨⟨("stringdb_custom_9606"), [9606], [(1, ("P1"))], []⟩, some ⟨1, 1⟩⟩ (by decide)

/-! Claim C6. -/

/-- C6: on a status-404 response whose body fails to decode as JSON, the
handler clause `except e:` evaluates the undefined name `e` and raises
`NameError` — nothing is logged, and no `SourceAPIClientResponseError`
carrying the status, reason and body is ever raised, contradicting the
claimed best-effort behaviour. -/
theorem c6_decode_failure_raises_nameerror :
    raise_for_status_with_desc ⟨404, ("Not Found"), none, false⟩ =
      ⟨⟨404, ("Not Found"), none, false⟩, [], some (ClientError.nameError ("e"))⟩ ∧
    ¬ ∃ s m b, (raise_for_status_with_desc ⟨404, ("Not Found"), none, false⟩).raised =
        some (ClientError.sourceAPIClientResponseError s m b) := by
  constructor
  · decide
  · rintro ⟨s, m, b, hc⟩
    have h0 : (raise_for_status_with_desc ⟨404, ("Not Found"), none, false⟩).raised =
        some (ClientError.nameError ("e")) := by decide
    rw [h0] at hc
    simp at hc

/-! Claim C7. -/

/-- C7 counterexample: the edge-validation step raises.  With two species
sharing the external alias `"TP53"`, the resolved identifier map has a
duplicate `external_id` index and the external-scheme rewrite fails with
`InvalidIndexError`; with an empty edge list the empty select returns zero
rows and the `species_id` access on the column-less frame fails with
`AttributeError` before the edge frame is ever built; and with the
`isnumeric`-but-not-decimal token `"²"` the canonical cast `int(vert_id)`
fails with `ValueError`.  In all three cases `build_custom_network` raises
instead of degrading to dropped rows. -/
theorem c7_builder_raises_counterexample :
    build_custom_network [⟨1, 9606, ("TP53")⟩, ⟨2, 10090, ("TP53")⟩]
        [(("TP53"), ("TP53"))] = Except.error PyErr.invalidIndexError ∧
    build_custom_network [⟨1, 9606, ("P1")⟩] ([] : List (String × String)) =
      Except.error PyErr.attributeError ∧
    build_custom_network [⟨2, 9606, ("P2")⟩] [(("²"), ("²"))] =
      Except.error PyErr.valueError := by
  refine ⟨by decide, by decide, by decide⟩

/-- C7 (amended): the edge-validation and rewriting step never raises — it
returns a completed outcome, degrading only by dropping rows — provided
that (i) under the canonical scheme every token is accepted by `int()`
(an `isnumeric` token with a non-decimal numeric makes the cast raise
`ValueError`), (ii) the resolved identifier map is non-empty (a zero-row
response makes the `species_id` access raise `AttributeError`, which also
covers every empty edge list), and (iii) under the external scheme the
resolved external IDs are pairwise distinct (duplicates make the endpoint
rewrite raise `InvalidIndexError`). -/
theorem c7_total_unless_degenerate (db : List ProteinRow)
    (raw_edges : List (String × String))
    (hcast : inferScheme (vertTokens raw_edges) = Scheme.canonical →
      (vertTokens raw_edges).all pyIntAccepts = true)
    (hvd : resolvedVertData db (vertTokens raw_edges) ≠ [])
    (hnd : inferScheme (vertTokens raw_edges) = Scheme.external →
      ((resolvedVertData db (vertTokens raw_edges)).map
        (fun r => r.protein_external_id)).Nodup) :
    ∃ out : BuildOutcome, build_custom_network db raw_edges = Except.ok out := by
  have hng : ¬ (inferScheme (vertTokens raw_edges) = Scheme.canonical ∧
      (vertTokens raw_edges).all pyIntAccepts = false) := by
    rintro ⟨h1, h2⟩
    rw [hcast h1] at h2
    cases h2
  cases hsc : inferScheme (vertTokens raw_edges) with
  | canonical =>
    exact ⟨_, build_custom_network_eq_ok hng hvd (survivingEdges_canonical hsc)⟩
  | external =>
    have hext : buildEdgesExternal raw_edges (resolvedVertData db (vertTokens raw_edges)) =
        Except.ok (raw_edges.filterMap (fun e =>
          match extIdToStringId (resolvedVertData db (vertTokens raw_edges)) e.1,
              extIdToStringId (resolvedVertData db (vertTokens raw_edges)) e.2 with
          | some a, some b => some (a, b)
          | _, _ => none)) := by
      simp [buildEdgesExternal, hnd hsc]
    have hsv : survivingEdges db raw_edges = Except.ok
        ((raw_edges.filterMap (fun e =>
          match extIdToStringId (resolvedVertData db (vertTokens raw_edges)) e.1,
              extIdToStringId (resolvedVertData db (vertTokens raw_edges)) e.2 with
          | some a, some b => some (a, b)
          | _, _ => none)).map (fun e => (PyVal.int e.1, PyVal.int e.2))) := by
      rw [survivingEdges_external hsc, hext]
    exact ⟨_, build_custom_network_eq_ok hng hvd hsv⟩

/-- C7 witness: the amended totality theorem applied to a concrete
external-scheme run with a non-empty, duplicate-free identifier map. -/
theorem c7_total_unless_degenerate_witness :
    ∃ out : BuildOutcome,
      build_custom_network [⟨5, 9606, ("A")⟩] [(("A"), ("B"))] = Except.ok out :=
  c7_total_unless_degenerate [⟨5, 9606, ("A")⟩] [(("A"), ("B"))]
    (by decide) (by decide) (fun _ => by decide)

/-! Claim C8. -/

/-- C8: every completed `build_custom_network` run names its Network by
joining the sorted deduplicated species IDs after the literal
`"stringdb_custom_"`; the name depends only on the set of species IDs
touched (any two completed runs touching the same species set get the same
name); and the vertex token set queried is exactly the deduplicated set of
all tokens occurring in the supplied edges. -/
theorem c8_name_from_sorted_species_and_vertex_set (db : List ProteinRow)
    (raw_edges : List (String × String)) (out : BuildOutcome)
    (h : build_custom_network db raw_edges = Except.ok out) :
    out.network.name = "stringdb_custom_" ++
      String.intercalate ("_")
        ((List.insertionSort (fun a b => a ≤ b) out.network.species_ids).map toString) ∧
    (∀ t : String, t ∈ vertTokens raw_edges ↔ ∃ e ∈ raw_edges, t = e.1 ∨ t = e.2) ∧
    (∀ (db2 : List ProteinRow) (raw2 : List (String × String)) (out2 : BuildOutcome),
      build_custom_network db2 raw2 = Except.ok out2 →
      (∀ s : Int, s ∈ out.network.species_ids ↔ s ∈ out2.network.species_ids) →
      out2.network.name = out.network.name) := by
  obtain ⟨-, -, edges, -, hout⟩ := build_custom_network_ok_shape h
  subst hout
  refine ⟨assembleOutcome_name db raw_edges edges,
    fun t => mem_vertTokens t raw_edges, ?_⟩
  intro db2 raw2 out2 h2 hmem
  obtain ⟨-, -, edges2, -, hout2⟩ := build_custom_network_ok_shape h2
  subst hout2
  rw [assembleOutcome_name db raw_edges edges, assembleOutcome_name db2 raw2 edges2]
  rw [assembleOutcome_species, assembleOutcome_species] at hmem ⊢
  have hsort := insertionSort_dedup_eq_of_mem_iff
    ((resolvedVertData db2 (vertTokens raw2)).map (fun r => r.species_id))
    ((resolvedVertData db (vertTokens raw_edges)).map (fun r => r.species_id))
    (fun a => by
      have h3 := hmem a
      rw [List.mem_dedup, List.mem_dedup] at h3
      exact h3.symm)
  rw [hsort]

/-- C8 witness: the naming theorem applied to a concrete run touching
species 9606. -/
theorem c8_name_from_sorted_species_and_vertex_set_witness :
    ("stringdb_custom_9606" : String) = "stringdb_custom_" ++
      String.intercalate ("_")
        ((List.insertionSort (fun a b => a ≤ b) [(9606 : Int)]).map toString) ∧
    (∀ t : String, t ∈ vertTokens [(("1"), ("1"))] ↔
      ∃ e ∈ [(("1"), ("1"))], t = e.1 ∨ t = e.2) ∧
    (∀ (db2 : List ProteinRow) (raw2 : List (String × String)) (out2 : BuildOutcome),
      build_custom_network db2 raw2 = Except.ok out2 →
      (∀ s : Int, s ∈ [(9606 : Int)] ↔ s ∈ out2.network.species_ids) →
      out2.network.name = "stringdb_custom_9606") :=
  c8_name_from_sorted_species_and_vertex_set [⟨1, 9606, ("P1")⟩] [(("1"), ("1"))]
    ⟨⟨("stringdb_custom_9606"), [9606], [(1, ("P1"))],
      [(PyVal.str ("1"), PyVal.str ("1"))]⟩, none⟩ (by decide)

/-! Claim C9. -/

/-- C9: on the error path where the body decodes as JSON, the response is
released before the typed error is raised; but on the path where the decode
fails, the `except e:` handler raises `NameError` first, so the response is
never released although an exception propagates — the resource is not
released on every exit path, contradicting the claim. -/
theorem c9_release_skipped_on_decode_failure :
    (raise_for_status_with_desc
      ⟨404, ("Not Found"), some ("detail"), false⟩).resp.released = true ∧
    (raise_for_status_with_desc ⟨404, ("Not Found"), none, false⟩).resp.released = false ∧
    (raise_for_status_with_desc ⟨404, ("Not Found"), none, false⟩).raised ≠ none := by
  refine ⟨by decide, by decide, by decide⟩

/-! Claim C10. -/

/-- C10: for a canonical-scheme run, the edge table of the returned Network
holds the original string tokens of the kept input edges, every
IdentifierMap key is the integer cast of some queried vertex token, and each
endpoint equals the decimal string rendering of some key while being
distinct (as a Python value) from the integer key itself — the same entity
in two different representations. -/
theorem c10_canonical_string_tokens_integer_keys (db : List ProteinRow)
    (raw_edges : List (String × String)) (out : BuildOutcome)
    (hsc : inferScheme (vertTokens raw_edges) = Scheme.canonical)
    (h : build_custom_network db raw_edges = Except.ok out) :
    (∀ p ∈ out.network.edges, ∃ a b : String,
      p = (PyVal.str a, PyVal.str b) ∧ (a, b) ∈ raw_edges) ∧
    (∀ k ∈ out.network.id_map.map Prod.fst,
      ∃ t ∈ vertTokens raw_edges, strToInt t = k) ∧
    (∀ p ∈ out.network.edges,
      (∃ k ∈ out.network.id_map.map Prod.fst,
        PyVal.str (toString k) = p.1 ∧ p.1 ≠ PyVal.int k) ∧
      (∃ k ∈ out.network.id_map.map Prod.fst,
        PyVal.str (toString k) = p.2 ∧ p.2 ≠ PyVal.int k)) := by
  obtain ⟨-, -, edges, hs, hout⟩ := build_custom_network_ok_shape h
  subst hout
  rw [assembleOutcome_edges, assembleOutcome_id_map, map_fst_id_map]
  rw [survivingEdges_canonical hsc] at hs
  simp only [Except.ok.injEq] at hs
  subst hs
  have hvd : resolvedVertData db (vertTokens raw_edges) =
      selectProteinsById db ((vertTokens raw_edges).map strToInt) := by
    simp [resolvedVertData, hsc]
  refine ⟨?_, ?_, ?_⟩
  · intro p hp
    simp only [List.mem_map] at hp
    obtain ⟨e, he, rfl⟩ := hp
    exact ⟨e.1, e.2, rfl, ((mem_buildEdgesCanonical _ _ _).1 he).1⟩
  · intro k hk
    simp only [List.mem_map] at hk
    obtain ⟨r, hr, rfl⟩ := hk
    rw [hvd] at hr
    simp only [selectProteinsById, List.mem_filter, decide_eq_true_eq] at hr
    obtain ⟨-, hid⟩ := hr
    obtain ⟨t, ht, hteq⟩ := List.mem_map.1 hid
    exact ⟨t, ht, hteq⟩
  · intro p hp
    simp only [List.mem_map] at hp
    obtain ⟨e, he, rfl⟩ := hp
    obtain ⟨-, ⟨r1, hr1, h1⟩, ⟨r2, hr2, h2⟩⟩ := (mem_buildEdgesCanonical _ _ _).1 he
    constructor
    · exact ⟨r1.protein_id, List.mem_map_of_mem _ hr1, by simp [h1], by simp⟩
    · exact ⟨r2.protein_id, List.mem_map_of_mem _ hr2, by simp [h2], by simp⟩

/-- C10 witness: the representation theorem applied to a concrete canonical
run. -/
theorem c10_canonical_string_tokens_integer_keys_witness :
    (∀ p ∈ [(PyVal.str ("1"), PyVal.str ("1"))], ∃ a b : String,
      p = (PyVal.str a, PyVal.str b) ∧ (a, b) ∈ [(("1"), ("1"))]) ∧
    (∀ k ∈ [(1 : Int)], ∃ t ∈ vertTokens [(("1"), ("1"))], strToInt t = k) ∧
    (∀ p ∈ [(PyVal.str ("1"), PyVal.str ("1"))],
      (∃ k ∈ [(1 : Int)], PyVal.str (toString k) = p.1 ∧ p.1 ≠ PyVal.int k) ∧
      (∃ k ∈ [(1 : Int)], PyVal.str (toString k) = p.2 ∧ p.2 ≠ PyVal.int k)) :=
  c10_canonical_string_tokens_integer_keys [⟨1, 9606, ("9606.ENSP1")⟩] [("1", "1")]
    ⟨⟨("stringdb_custom_9606"), [9606], [(1, ("9606.ENSP1"))],
      [(PyVal.str ("1"), PyVal.str ("1"))]⟩, none⟩ (by decide) (by decide)

end PPISources
